import Mathlib

/-!
Shallow embedding of `onaudience_api/api_dmp.py` (class
`DatapointAssignmentController`) and proofs about its specification.

Python integers are modelled as `Int` (`Nat` after the non-negative
modulus), Python strings as `String`, Python dicts used as JSON values as
an explicit `JVal` tree, and the network as a trace of `Call`s.  The login
response is a parameter `resp : String → Option String` giving the
response headers (`r.headers.get`).  Exceptions (`AssertionError` from
`assert isinstance`, `IndexError` from list indexing) are modelled with
`PyError`; an operation that can raise returns the calls it made together
with `Option PyError`.
-/

/-- Python `hex(n)[2:]` for a non-negative `n`: lowercase hexadecimal
digits, most significant first, and `"0"` for zero. -/
def pyHex (n : Nat) : String :=
  if n = 0 then "0" else String.mk (((Nat.digits 16 n).map Nat.digitChar).reverse)

/-- Python `str.zfill`: left-pad with `'0'` to the given width (no sign
handling is needed here, the padded string is always a bare hex numeral). -/
def zfill (s : String) (width : Nat) : String :=
  String.mk (List.replicate (width - s.length) '0') ++ s

/-- Method `tohex` (api_dmp.py lines 116-118):
`hex((val + (1 << nbits)) % (1 << nbits))[2:]` followed by `.zfill(16)`.
Python `%` with a positive modulus is Lean's `Int.emod`: both are
non-negative, so `.toNat` is exact. -/
def tohex (val : Int) (nbits : Nat) : String :=
  zfill (pyHex ((val + 2 ^ nbits) % (2 ^ nbits : Int)).toNat) 16

/-- Value of a lowercase hex digit character (inverse of `Nat.digitChar`
on `0..15`), used only in proofs about `tohex`. -/
def hexVal (c : Char) : Nat :=
  if c.isDigit then c.toNat - 48 else c.toNat - 87

/-- Numeric value of a string of hex digits, most significant first;
a left inverse of `zfill (pyHex n) 16` used to prove injectivity. -/
def unhex (s : String) : Nat :=
  Nat.ofDigits 16 ((s.data.map hexVal).reverse)

/-- Modelled from the spec's words for claim comparison: the "wrapped
63-bit unsigned encoding" of an integer, i.e. the value reduced modulo
`2 ^ 63` and written as a 16-character lowercase hex string. -/
def wrapped63 (v : Int) : String :=
  zfill (pyHex ((v % (2 ^ 63 : Int)).toNat)) 16

/-- Lowercase hexadecimal digit characters. -/
def isLowerHexDigit (c : Char) : Bool :=
  "0123456789abcdef".data.contains c

/-- The client state set up by `DatapointAssignmentController.__init__`
(api_dmp.py lines 77-90) after the type asserts pass. -/
structure Client where
  username : String
  password : String
  cmPartnerId : Int
  content_type : String
  response_content_type : String

/-- JSON values as built by the payload dictionaries. -/
inductive JVal where
  | jnull : JVal
  | jint : Int → JVal
  | jstr : String → JVal
  | jobj : List (String × JVal) → JVal
  | jarr : List JVal → JVal

/-- One network interaction: the login POST of `get_headers_with_token`,
or an assignment POST with its url, headers and JSON payload. -/
inductive Call where
  | login : String → Call
  | post : String → List (String × Option String) → JVal → Call

def Call.isLogin : Call → Bool
  | .login _ => true
  | .post _ _ _ => false

def Call.isPost : Call → Bool
  | .login _ => false
  | .post _ _ _ => true

def Call.headersOf : Call → List (String × Option String)
  | .login _ => []
  | .post _ h _ => h

def Call.bodyOf : Call → JVal
  | .login _ => JVal.jnull
  | .post _ _ b => b

/-- Exceptions the embedded code can raise. -/
inductive PyError where
  | AssertionError : PyError
  | IndexError : PyError
deriving DecidableEq

/-- Python values as passed to `__init__`, carrying their dynamic type. -/
inductive PyVal where
  | pyStr : String → PyVal
  | pyInt : Int → PyVal
  | pyList : List PyVal → PyVal
  | pyNone : PyVal

def PyVal.isStr : PyVal → Bool
  | .pyStr _ => true
  | _ => false

def PyVal.isInt : PyVal → Bool
  | .pyInt _ => true
  | _ => false

/-- Constructor `__init__` (api_dmp.py lines 77-90): five sequential
`assert isinstance` checks, then plain field assignments.  Returns the
constructed client or the `AssertionError` of the first failing assert,
together with the (empty) list of network calls it performs. -/
def initClient (username password cmPartnerId ct rct : PyVal) :
    Except PyError Client × List Call :=
  match username with
  | .pyStr u =>
    match password with
    | .pyStr p =>
      match cmPartnerId with
      | .pyInt pid =>
        match ct with
        | .pyStr cts =>
          match rct with
          | .pyStr rcts => (Except.ok ⟨u, p, pid, cts, rcts⟩, [])
          | _ => (Except.error PyError.AssertionError, [])
        | _ => (Except.error PyError.AssertionError, [])
      | _ => (Except.error PyError.AssertionError, [])
    | _ => (Except.error PyError.AssertionError, [])
  | _ => (Except.error PyError.AssertionError, [])

/-- Login url after `url.format(self.username, self.password)`
(api_dmp.py line 103). -/
def loginUrl (c : Client) : String :=
  "https://dmp-api.cloudtechnologies.dev/login?email=" ++ c.username ++
    "&password=" ++ c.password

/-- Method `get_headers_with_token` (api_dmp.py lines 92-114): POSTs the
credentials to the login url, reads `r.headers.get('X-Auth-Token')` (which
is `None` when absent) and returns the header dict — whose first key is
the source's literal typo `'accpet'` — together with the one login call it
issued. -/
def get_headers_with_token (c : Client) (resp : String → Option String) :
    List (String × Option String) × List Call :=
  let token := resp "X-Auth-Token"
  ([("accpet", some c.response_content_type),
    ("X-Auth-Token", token),
    ("Content-Type", some c.content_type)],
   [Call.login (loginUrl c)])

/-- Assignment url for `/event` after `url.format(self.cmPartnerId, i)`
(api_dmp.py line 136). -/
def eventUrl (c : Client) (hexId : String) : String :=
  "https://dmp-api.cloudtechnologies.dev/event?cmPartnerId=" ++
    toString c.cmPartnerId ++ "&userId=" ++ hexId

/-- Assignment url for `/number-attributes` (api_dmp.py line 202). -/
def numberAttributesUrl (c : Client) (hexId : String) : String :=
  "https://dmp-api.cloudtechnologies.dev/number-attributes?cmPartnerId=" ++
    toString c.cmPartnerId ++ "&userId=" ++ hexId

/-- Assignment url for `/string-attributes` (api_dmp.py line 253). -/
def stringAttributesUrl (c : Client) (hexId : String) : String :=
  "https://dmp-api.cloudtechnologies.dev/string-attributes?cmPartnerId=" ++
    toString c.cmPartnerId ++ "&userId=" ++ hexId

/-- Method `assign_event_to_user` (api_dmp.py lines 120-144): hex-encode
every user id, fetch headers once, then POST the payload
`{'body': {'id': datapoint}}` once per encoded id.  Returns the trace of
calls in order. -/
def assign_event_to_user (c : Client) (resp : String → Option String)
    (userId : List Int) (datapoint : Int) : List Call :=
  let h_userId := userId.map (fun val => tohex val 63)
  let hc := get_headers_with_token c resp
  let payload := JVal.jobj [("body", JVal.jobj [("id", JVal.jint datapoint)])]
  hc.2 ++ h_userId.map (fun i => Call.post (eventUrl c i) hc.1 payload)

/-- The loop at api_dmp.py lines 205-208 / 256-259:
`for i in range(len(datapointsList)): append({'id': datapointsList[i],
'value': values[i]})`.  It walks the positions of `datapointsList`, reads
`values` at the same position, and raises `IndexError` (modelled as
`none`) at the first position where `values` has run out; positions of
`values` beyond `datapointsList` are never read. -/
def buildDescriptors (mk : α → JVal) : List Int → List α → Option (List JVal)
  | [], _ => some []
  | _ :: _, [] => none
  | d :: ds, v :: vs =>
    (buildDescriptors mk ds vs).map
      (fun rest => JVal.jobj [("id", JVal.jint d), ("value", mk v)] :: rest)

/-- Method `assign_number_attributes` (api_dmp.py lines 194-221): the
descriptor list is built (lines 205-208) before `get_headers_with_token`
is called (line 211), so an `IndexError` there escapes with no network
call made.  On success: one login call, then one POST of
`{'body': [{'id': dp, 'value': v}, ...]}` per hex-encoded user id. -/
def assign_number_attributes (c : Client) (resp : String → Option String)
    (userId : List Int) (datapointsList : List Int)
    (attribute_values : List Int) : List Call × Option PyError :=
  let h_userId := userId.map (fun val => tohex val 63)
  match buildDescriptors JVal.jint datapointsList attribute_values with
  | none => ([], some PyError.IndexError)
  | some descs =>
    let hc := get_headers_with_token c resp
    let payload := JVal.jobj [("body", JVal.jarr descs)]
    (hc.2 ++ h_userId.map
        (fun i => Call.post (numberAttributesUrl c i) hc.1 payload),
     none)

/-- Method `assign_string_attributes` (api_dmp.py lines 245-271): same
shape as `assign_number_attributes` with string attribute values and the
`/string-attributes` endpoint. -/
def assign_string_attributes (c : Client) (resp : String → Option String)
    (userId : List Int) (datapointsList : List Int)
    (string_values : List String) : List Call × Option PyError :=
  let h_userId := userId.map (fun val => tohex val 63)
  match buildDescriptors JVal.jstr datapointsList string_values with
  | none => ([], some PyError.IndexError)
  | some descs =>
    let hc := get_headers_with_token c resp
    let payload := JVal.jobj [("body", JVal.jarr descs)]
    (hc.2 ++ h_userId.map
        (fun i => Call.post (stringAttributesUrl c i) hc.1 payload),
     none)

/-- A concrete client used by witnesses and counterexamples. -/
def c0 : Client :=
  ⟨"user@example.com", "pw", 1, "application/json", "*/*"⟩

/-- A concrete login response whose `X-Auth-Token` header is present. -/
def resp0 : String → Option String := fun _ => some "tok"

/-- A concrete login response with no `X-Auth-Token` header. -/
def respNone : String → Option String := fun _ => none

/-! Helper lemmas about the hex encoding. -/

/-- Adding one full period before reducing changes nothing. -/
theorem add_pow_emod (v : Int) : (v + 2 ^ 63) % (2 ^ 63 : Int) = v % 2 ^ 63 := by
  have h := Int.add_mul_emod_self_left v (2 ^ 63) 1
  rw [mul_one] at h
  exact h

/-- On hex digit values, `hexVal` inverts `Nat.digitChar`. -/
theorem hexVal_digitChar : ∀ d < 16, hexVal (Nat.digitChar d) = d := by decide

/-- Hex digit characters emitted by `Nat.digitChar` are lowercase hex. -/
theorem digitChar_isLowerHex : ∀ d < 16, isLowerHexDigit (Nat.digitChar d) = true := by
  decide

/-- A run of zero digits contributes nothing to `Nat.ofDigits`. -/
theorem ofDigits_replicate_zero (b k : Nat) :
    Nat.ofDigits b (List.replicate k 0) = 0 := by
  induction k with
  | zero => simp [Nat.ofDigits]
  | succ k ih => simp [List.replicate, Nat.ofDigits, ih]

/-- Left-padding with zeros does not change the decoded value. -/
theorem unhex_zfill (s : String) (w : Nat) : unhex (zfill s w) = unhex s := by
  unfold unhex zfill
  rw [String.data_append]
  show Nat.ofDigits 16
      (((List.replicate (w - s.length) '0' ++ s.data).map hexVal).reverse) = _
  rw [List.map_append, List.map_replicate]
  show Nat.ofDigits 16
      ((List.replicate (w - s.length) (hexVal '0') ++ s.data.map hexVal).reverse) = _
  rw [List.reverse_append, List.reverse_replicate, Nat.ofDigits_append]
  show _ + 16 ^ _ * Nat.ofDigits 16 (List.replicate _ (hexVal '0')) = _
  have h0 : hexVal '0' = 0 := rfl
  rw [h0, ofDigits_replicate_zero]
  simp

/-- Decoding inverts `pyHex`. -/
theorem unhex_pyHex (n : Nat) : unhex (pyHex n) = n := by
  unfold unhex pyHex
  by_cases h : n = 0
  · subst h
    decide
  · rw [if_neg h]
    show Nat.ofDigits 16
        (((((Nat.digits 16 n).map Nat.digitChar).reverse).map hexVal).reverse) = n
    rw [List.map_reverse, List.reverse_reverse, List.map_map]
    have hmap : List.map (hexVal ∘ Nat.digitChar) (Nat.digits 16 n) =
        List.map id (Nat.digits 16 n) :=
      List.map_congr_left
        (fun d hd => hexVal_digitChar d (Nat.digits_lt_base (by norm_num) hd))
    rw [hmap, List.map_id, Nat.ofDigits_digits]

/-- In range, the shifted modulus is the identity. -/
theorem emod_id_of_range (v : Int) (h0 : 0 ≤ v) (h1 : v < 2 ^ 63) :
    (v + 2 ^ 63) % (2 ^ 63 : Int) = v := by
  rw [add_pow_emod, Int.emod_eq_of_lt h0 h1]

/-- On `[0, 2^63)`, `tohex` is plain padded hex of the value. -/
theorem tohex_eq_of_range (v : Int) (h0 : 0 ≤ v) (h1 : v < 2 ^ 63) :
    tohex v 63 = zfill (pyHex v.toNat) 16 := by
  unfold tohex
  rw [emod_id_of_range v h0 h1]

/-- Concrete value at 0, matching the spec's example. -/
theorem tohex_zero : tohex 0 63 = "0000000000000000" := by decide

/-- Concrete value at 1, matching the spec's example. -/
theorem tohex_one : tohex 1 63 = "0000000000000001" := by
  rw [tohex_eq_of_range 1 (by decide) (by decide)]
  have h1 : Nat.digits 16 (Int.toNat 1) = [1] := by simp
  rw [pyHex, if_neg (by decide), h1]
  decide

/-- Padded hex of anything below `2 ^ 64` is exactly 16 characters. -/
theorem zfill_pyHex_length (n : Nat) (h : n < 2 ^ 64) :
    (zfill (pyHex n) 16).length = 16 := by
  have hlen : (pyHex n).length ≤ 16 := by
    unfold pyHex
    by_cases h0 : n = 0
    · rw [if_pos h0]
      decide
    · rw [if_neg h0]
      show (((Nat.digits 16 n).map Nat.digitChar).reverse).length ≤ 16
      rw [List.length_reverse, List.length_map]
      rw [Nat.digits_len 16 n (by norm_num) h0]
      have hlog : Nat.log 16 n < 16 :=
        Nat.log_lt_of_lt_pow h0 (by calc
          n < 2 ^ 64 := h
          _ = 16 ^ 16 := by norm_num)
      omega
  unfold zfill
  rw [String.length_append]
  show (List.replicate (16 - (pyHex n).length) '0').length + (pyHex n).length = 16
  rw [List.length_replicate]
  omega

/-- Every character of padded hex output is a lowercase hex digit. -/
theorem zfill_pyHex_chars (n w : Nat) :
    ∀ ch ∈ (zfill (pyHex n) w).data, isLowerHexDigit ch = true := by
  intro ch hch
  unfold zfill at hch
  rw [String.data_append] at hch
  have hch2 : ch ∈ List.replicate (w - (pyHex n).length) '0' ++ (pyHex n).data :=
    hch
  rcases List.mem_append.mp hch2 with hrep | hpy
  · rw [List.eq_of_mem_replicate hrep]
    decide
  · unfold pyHex at hpy
    by_cases h0 : n = 0
    · rw [if_pos h0] at hpy
      have : ch = '0' := by simpa using hpy
      rw [this]
      decide
    · rw [if_neg h0] at hpy
      have hpy2 : ch ∈ ((Nat.digits 16 n).map Nat.digitChar).reverse := hpy
      rw [List.mem_reverse] at hpy2
      rcases List.mem_map.mp hpy2 with ⟨d, hd, hdc⟩
      rw [← hdc]
      exact digitChar_isLowerHex d (Nat.digits_lt_base (by norm_num) hd)

/-- Injectivity of `tohex` on `[0, 2^63)`, via the decoding inverse. -/
theorem tohex_inj (v w : Int) (hv0 : 0 ≤ v) (hv1 : v < 2 ^ 63)
    (hw0 : 0 ≤ w) (hw1 : w < 2 ^ 63) (h : tohex v 63 = tohex w 63) : v = w := by
  rw [tohex_eq_of_range v hv0 hv1, tohex_eq_of_range w hw0 hw1] at h
  have hn : v.toNat = w.toNat := by
    have := congrArg unhex h
    rwa [unhex_zfill, unhex_zfill, unhex_pyHex, unhex_pyHex] at this
  calc v = (v.toNat : Int) := (Int.toNat_of_nonneg hv0).symm
    _ = (w.toNat : Int) := by rw [hn]
    _ = w := Int.toNat_of_nonneg hw0

/-- The descriptor dict `{'id': d, 'value': v}` built by the plural loops. -/
def descPair (mk : α → JVal) (d : Int) (v : α) : JVal :=
  JVal.jobj [("id", JVal.jint d), ("value", mk v)]

/-- When the value list is too short, the loop hits an out-of-range index. -/
theorem buildDescriptors_eq_none (mk : α → JVal) :
    ∀ (dps : List Int) (vals : List α), vals.length < dps.length →
      buildDescriptors mk dps vals = none := by
  intro dps
  induction dps with
  | nil =>
    intro vals h
    simp at h
  | cons d ds ih =>
    intro vals h
    cases vals with
    | nil => rfl
    | cons v vs =>
      have hlt : vs.length < ds.length := by
        simpa using h
      simp [buildDescriptors, ih vs hlt]

/-- When the value list is long enough, the loop pairs positionally and
ignores the values beyond the datapoint list. -/
theorem buildDescriptors_eq_zipWith (mk : α → JVal) :
    ∀ (dps : List Int) (vals : List α), dps.length ≤ vals.length →
      buildDescriptors mk dps vals =
        some (List.zipWith (fun d v => descPair mk d v) dps vals) := by
  intro dps
  induction dps with
  | nil =>
    intro vals _
    rfl
  | cons d ds ih =>
    intro vals h
    cases vals with
    | nil => simp at h
    | cons v vs =>
      have hle : ds.length ≤ vs.length := by
        simpa using h
      simp [buildDescriptors, ih vs hle, descPair]

/-- Shape of the call trace of `assign_event_to_user`: the login, then one
POST per user id, in order, sharing headers and payload. -/
theorem assign_event_trace (c : Client) (resp : String → Option String)
    (uid : List Int) (dp : Int) :
    assign_event_to_user c resp uid dp =
      Call.login (loginUrl c) ::
        uid.map (fun v =>
          Call.post (eventUrl c (tohex v 63)) (get_headers_with_token c resp).1
            (JVal.jobj [("body", JVal.jobj [("id", JVal.jint dp)])])) := by
  unfold assign_event_to_user
  simp [List.map_map, get_headers_with_token, Function.comp]

/-- Shape of the result of `assign_number_attributes` when the value list
is long enough: no error, the login, then one POST per user id with the
positionally paired payload. -/
theorem assign_number_trace (c : Client) (resp : String → Option String)
    (uid dps vals : List Int) (h : dps.length ≤ vals.length) :
    assign_number_attributes c resp uid dps vals =
      (Call.login (loginUrl c) ::
        uid.map (fun v =>
          Call.post (numberAttributesUrl c (tohex v 63))
            (get_headers_with_token c resp).1
            (JVal.jobj [("body",
              JVal.jarr (List.zipWith (fun d w => descPair JVal.jint d w) dps vals))])),
       none) := by
  unfold assign_number_attributes
  rw [buildDescriptors_eq_zipWith JVal.jint dps vals h]
  simp [List.map_map, get_headers_with_token, Function.comp]

/-- Shape of the result of `assign_number_attributes` when the value list
is too short: the `IndexError` escapes before any call is issued. -/
theorem assign_number_trace_short (c : Client) (resp : String → Option String)
    (uid dps vals : List Int) (h : vals.length < dps.length) :
    assign_number_attributes c resp uid dps vals = ([], some PyError.IndexError) := by
  unfold assign_number_attributes
  rw [buildDescriptors_eq_none JVal.jint dps vals h]

/-- Shape of the result of `assign_string_attributes` when the value list
is long enough. -/
theorem assign_string_trace (c : Client) (resp : String → Option String)
    (uid dps : List Int) (vals : List String) (h : dps.length ≤ vals.length) :
    assign_string_attributes c resp uid dps vals =
      (Call.login (loginUrl c) ::
        uid.map (fun v =>
          Call.post (stringAttributesUrl c (tohex v 63))
            (get_headers_with_token c resp).1
            (JVal.jobj [("body",
              JVal.jarr (List.zipWith (fun d w => descPair JVal.jstr d w) dps vals))])),
       none) := by
  unfold assign_string_attributes
  rw [buildDescriptors_eq_zipWith JVal.jstr dps vals h]
  simp [List.map_map, get_headers_with_token, Function.comp]

/-- Shape of the result of `assign_string_attributes` when the value list
is too short. -/
theorem assign_string_trace_short (c : Client) (resp : String → Option String)
    (uid dps : List Int) (vals : List String) (h : vals.length < dps.length) :
    assign_string_attributes c resp uid dps vals = ([], some PyError.IndexError) := by
  unfold assign_string_attributes
  rw [buildDescriptors_eq_none JVal.jstr dps vals h]

/-- Counting helper for traces of the form login-then-one-post-per-id. -/
theorem trace_counts (u : String) (hs : List (String × Option String))
    (b : JVal) (g : Int → String) (l : List Int) :
    (Call.login u :: l.map (fun v => Call.post (g v) hs b)).countP Call.isPost
        = l.length ∧
    (Call.login u :: l.map (fun v => Call.post (g v) hs b)).countP Call.isLogin
        = 1 ∧
    ∀ call ∈ Call.login u :: l.map (fun v => Call.post (g v) hs b),
      call.isPost = true → call.headersOf = hs := by
  refine ⟨?_, ?_, ?_⟩
  · simp [List.countP_cons, List.countP_map, Call.isPost, Function.comp,
      List.countP_true]
  · simp [List.countP_cons, List.countP_map, Call.isLogin, Function.comp,
      List.countP_false]
  · intro call hcall hpost
    rcases List.mem_cons.mp hcall with hlog | hmem
    · rw [hlog] at hpost
      simp [Call.isPost] at hpost
    · rcases List.mem_map.mp hmem with ⟨v, _, hv⟩
      rw [← hv]
      rfl

/-- C2: for every integer in `[0, 2^63)`, `tohex` at 63 bits is the
16-left-padded lowercase hex of `(value + 2^63) mod 2^63`, which on this
domain is the identity transform in hex; in particular the values at 0 and
1 are the spec's example strings. -/
theorem c2_tohex_range_identity (v : Int) (h0 : 0 ≤ v) (h1 : v < 2 ^ 63) :
    tohex v 63 = zfill (pyHex ((v + 2 ^ 63) % (2 ^ 63 : Int)).toNat) 16 ∧
    tohex v 63 = zfill (pyHex v.toNat) 16 ∧
    tohex 0 63 = "0000000000000000" ∧ tohex 1 63 = "0000000000000001" :=
  ⟨rfl, tohex_eq_of_range v h0 h1, tohex_zero, tohex_one⟩

/-- Witness for C2 at the concrete input 1. -/
theorem c2_tohex_range_identity_witness :
    (0 : Int) ≤ 1 ∧ (1 : Int) < 2 ^ 63 ∧
      (tohex 1 63 = zfill (pyHex (((1 : Int) + 2 ^ 63) % (2 ^ 63 : Int)).toNat) 16 ∧
       tohex 1 63 = zfill (pyHex (1 : Int).toNat) 16 ∧
       tohex 0 63 = "0000000000000000" ∧ tohex 1 63 = "0000000000000001") :=
  ⟨by decide, by decide, c2_tohex_range_identity 1 (by decide) (by decide)⟩

/-- C3 counterexample: at the out-of-range value `-1`, the result of
`tohex` IS exactly the wrapped 63-bit unsigned encoding, contradicting
the claim that the wrap is not performed. -/
theorem c3_counterexample : tohex (-1) 63 = wrapped63 (-1) := by
  have h : (((-1 : Int) + 2 ^ 63) % (2 ^ 63 : Int)).toNat =
      ((-1 : Int) % (2 ^ 63 : Int)).toNat := by decide
  unfold tohex wrapped63
  rw [h]

/-- C3 (amended): `tohex` DOES perform the two's-complement-style wrap:
for every integer value the result is the wrapped 63-bit unsigned
encoding (`value mod 2^63` in 16 lowercase hex characters); consequently
the encoding collides outside the range, e.g. at `2^63` and `0`. -/
theorem c3_tohex_wraps :
    (∀ v : Int, tohex v 63 = wrapped63 v) ∧ tohex (2 ^ 63) 63 = tohex 0 63 := by
  constructor
  · intro v
    unfold tohex wrapped63
    rw [add_pow_emod]
  · decide

/-- C8: `tohex` at 63 bits restricted to `[0, 2^63)` is injective, and
its output always has exactly 16 characters, each a lowercase hex digit. -/
theorem c8_tohex_inj_wellformed (v w : Int) (hv0 : 0 ≤ v) (hv1 : v < 2 ^ 63)
    (hw0 : 0 ≤ w) (hw1 : w < 2 ^ 63) :
    (tohex v 63 = tohex w 63 → v = w) ∧
    (tohex v 63).length = 16 ∧
    ∀ ch ∈ (tohex v 63).data, isLowerHexDigit ch = true := by
  have hn : v.toNat < 2 ^ 64 := by
    have hcast : (v.toNat : Int) < 2 ^ 63 := by
      rwa [Int.toNat_of_nonneg hv0]
    have h63 : v.toNat < 2 ^ 63 := by exact_mod_cast hcast
    exact Nat.lt_of_lt_of_le h63 (by norm_num)
  refine ⟨tohex_inj v w hv0 hv1 hw0 hw1, ?_, ?_⟩
  · rw [tohex_eq_of_range v hv0 hv1]
    exact zfill_pyHex_length v.toNat hn
  · rw [tohex_eq_of_range v hv0 hv1]
    exact zfill_pyHex_chars v.toNat 16

/-- Witness for C8 at the concrete inputs 0 and 1. -/
theorem c8_tohex_inj_wellformed_witness :
    (0 : Int) ≤ 0 ∧ (0 : Int) < 2 ^ 63 ∧ (0 : Int) ≤ 1 ∧ (1 : Int) < 2 ^ 63 ∧
      ((tohex 0 63 = tohex 1 63 → (0 : Int) = 1) ∧
       (tohex 0 63).length = 16 ∧
       ∀ ch ∈ (tohex 0 63).data, isLowerHexDigit ch = true) :=
  ⟨by decide, by decide, by decide, by decide,
   c8_tohex_inj_wellformed 0 1 (by decide) (by decide) (by decide) (by decide)⟩

/-- C4 counterexample: at a concrete client and login response, the header
map has no key `Accept` — its keys are `accpet` (the source's typo),
`X-Auth-Token` and `Content-Type`. -/
theorem c4_counterexample :
    ((get_headers_with_token c0 resp0).1.map Prod.fst).contains "Accept" = false ∧
    (get_headers_with_token c0 resp0).1.map Prod.fst =
      ["accpet", "X-Auth-Token", "Content-Type"] := by
  decide

/-- C4 (amended): `get_headers_with_token` always returns a header map
whose keys are exactly `accpet` (the source's misspelling of Accept),
`X-Auth-Token` and `Content-Type`, bound respectively to the client's
accept-type, the extracted token and the client's content-type. -/
theorem c4_headers_exact (c : Client) (resp : String → Option String) :
    (get_headers_with_token c resp).1 =
      [("accpet", some c.response_content_type),
       ("X-Auth-Token", resp "X-Auth-Token"),
       ("Content-Type", some c.content_type)] :=
  rfl

/-- C1: an assignment call on `k` user ids issues exactly `k` downstream
POSTs (one per user id, to the operation's fixed endpoint) and exactly 1
authentication call, all POSTs sharing the headers returned by the single
authentication; shown for `assign_event_to_user` unconditionally and for
`assign_string_attributes` whenever its descriptor loop completes. -/
theorem c1_one_login_k_posts (c : Client) (resp : String → Option String)
    (uid : List Int) (dp : Int) (dps : List Int) (svals : List String)
    (h : dps.length ≤ svals.length) :
    (assign_event_to_user c resp uid dp =
        Call.login (loginUrl c) ::
          uid.map (fun v =>
            Call.post (eventUrl c (tohex v 63)) (get_headers_with_token c resp).1
              (JVal.jobj [("body", JVal.jobj [("id", JVal.jint dp)])])) ∧
      (assign_event_to_user c resp uid dp).countP Call.isPost = uid.length ∧
      (assign_event_to_user c resp uid dp).countP Call.isLogin = 1 ∧
      ∀ call ∈ assign_event_to_user c resp uid dp, call.isPost = true →
        call.headersOf = (get_headers_with_token c resp).1) ∧
    (∃ t, assign_string_attributes c resp uid dps svals = (t, none) ∧
      t.countP Call.isPost = uid.length ∧
      t.countP Call.isLogin = 1 ∧
      ∀ call ∈ t, call.isPost = true →
        call.headersOf = (get_headers_with_token c resp).1) := by
  constructor
  · rw [assign_event_trace c resp uid dp]
    exact ⟨rfl, trace_counts _ _ _ _ uid⟩
  · refine ⟨_, assign_string_trace c resp uid dps svals h, trace_counts _ _ _ _ uid⟩

/-- Witness for C1 with one user id and an extra string value. -/
theorem c1_one_login_k_posts_witness :
    ([5] : List Int).length ≤ (["a", "b"] : List String).length ∧
    ((assign_event_to_user c0 resp0 [0] 42 =
        Call.login (loginUrl c0) ::
          ([0] : List Int).map (fun v =>
            Call.post (eventUrl c0 (tohex v 63)) (get_headers_with_token c0 resp0).1
              (JVal.jobj [("body", JVal.jobj [("id", JVal.jint 42)])])) ∧
      (assign_event_to_user c0 resp0 [0] 42).countP Call.isPost =
        ([0] : List Int).length ∧
      (assign_event_to_user c0 resp0 [0] 42).countP Call.isLogin = 1 ∧
      ∀ call ∈ assign_event_to_user c0 resp0 [0] 42, call.isPost = true →
        call.headersOf = (get_headers_with_token c0 resp0).1) ∧
    (∃ t, assign_string_attributes c0 resp0 [0] [5] ["a", "b"] = (t, none) ∧
      t.countP Call.isPost = ([0] : List Int).length ∧
      t.countP Call.isLogin = 1 ∧
      ∀ call ∈ t, call.isPost = true →
        call.headersOf = (get_headers_with_token c0 resp0).1)) :=
  ⟨by decide, c1_one_login_k_posts c0 resp0 [0] 42 [5] ["a", "b"] (by decide)⟩

/-- C6: when the login response has no `X-Auth-Token` header, the header
map is still returned, with a null token under `X-Auth-Token`, and the
downstream requests of `assign_event_to_user` all proceed carrying that
null token. -/
theorem c6_missing_token (c : Client) (resp : String → Option String)
    (h : resp "X-Auth-Token" = none) (uid : List Int) (dp : Int) :
    (get_headers_with_token c resp).1.lookup "X-Auth-Token" = some none ∧
    (assign_event_to_user c resp uid dp).countP Call.isPost = uid.length ∧
    ∀ call ∈ assign_event_to_user c resp uid dp, call.isPost = true →
      call.headersOf.lookup "X-Auth-Token" = some none := by
  have hlook : (get_headers_with_token c resp).1.lookup "X-Auth-Token" = some none := by
    simp [get_headers_with_token, List.lookup, h]
  refine ⟨hlook, ?_, ?_⟩
  · rw [assign_event_trace c resp uid dp]
    exact (trace_counts _ _ _ _ uid).1
  · intro call hcall hpost
    rw [assign_event_trace c resp uid dp] at hcall
    have hhd := (trace_counts (loginUrl c) (get_headers_with_token c resp).1
      (JVal.jobj [("body", JVal.jobj [("id", JVal.jint dp)])])
      (fun v => eventUrl c (tohex v 63)) uid).2.2 call hcall hpost
    rw [hhd, hlook]

/-- Witness for C6 with a token-less response and one user id. -/
theorem c6_missing_token_witness :
    respNone "X-Auth-Token" = none ∧
    ((get_headers_with_token c0 respNone).1.lookup "X-Auth-Token" = some none ∧
     (assign_event_to_user c0 respNone [3] 9).countP Call.isPost =
       ([3] : List Int).length ∧
     ∀ call ∈ assign_event_to_user c0 respNone [3] 9, call.isPost = true →
       call.headersOf.lookup "X-Auth-Token" = some none) :=
  ⟨rfl, c6_missing_token c0 respNone rfl [3] 9⟩

/-- C5 counterexample: a plural call whose attribute-value list is shorter
than its datapoint list does raise an error (`IndexError`), contradicting
the claim that mismatched lengths never raise. -/
theorem c5_counterexample :
    (assign_number_attributes c0 resp0 [0] [5, 6] [7]).2 =
      some PyError.IndexError := by
  decide

/-- C5 (amended): the plural operations perform no explicit length
validation: when the attribute-value list is at least as long as the
datapoint list (in particular strictly longer) no error is raised and
values are paired positionally, but when it is strictly shorter the
positional indexing itself raises an `IndexError`. -/
theorem c5_no_length_validation (c : Client) (resp : String → Option String)
    (uid dps nvals : List Int) (svals : List String) :
    (dps.length ≤ nvals.length →
      (assign_number_attributes c resp uid dps nvals).2 = none) ∧
    (nvals.length < dps.length →
      (assign_number_attributes c resp uid dps nvals).2 = some PyError.IndexError) ∧
    (dps.length ≤ svals.length →
      (assign_string_attributes c resp uid dps svals).2 = none) ∧
    (svals.length < dps.length →
      (assign_string_attributes c resp uid dps svals).2 = some PyError.IndexError) := by
  refine ⟨fun h => ?_, fun h => ?_, fun h => ?_, fun h => ?_⟩
  · rw [assign_number_trace c resp uid dps nvals h]
  · rw [assign_number_trace_short c resp uid dps nvals h]
  · rw [assign_string_trace c resp uid dps svals h]
  · rw [assign_string_trace_short c resp uid dps svals h]

/-- Witness for C5 exercising both the longer and the shorter direction. -/
theorem c5_no_length_validation_witness :
    (assign_number_attributes c0 resp0 [0] [5, 6] [7, 8, 9]).2 = none ∧
    (assign_string_attributes c0 resp0 [0] [5, 6] ["a"]).2 =
      some PyError.IndexError :=
  ⟨(c5_no_length_validation c0 resp0 [0] [5, 6] [7, 8, 9] []).1 (by decide),
   (c5_no_length_validation c0 resp0 [0] [5, 6] [] ["a"]).2.2.2 (by decide)⟩

/-- Body helper for traces of the form login-then-one-post-per-id. -/
theorem trace_bodies (u : String) (hdrs : List (String × Option String))
    (b : JVal) (g : Int → String) (l : List Int) :
    ∀ call ∈ Call.login u :: l.map (fun v => Call.post (g v) hdrs b),
      call.isPost = true → call.bodyOf = b := by
  intro call hcall hpost
  rcases List.mem_cons.mp hcall with hlog | hmem
  · rw [hlog] at hpost
    simp [Call.isPost] at hpost
  · rcases List.mem_map.mp hmem with ⟨v, _, hv⟩
    rw [← hv]
    rfl

/-- C7: with equal-length lists, the plural operations build a descriptor
list whose `i`-th entry is `{'id': datapointsList[i], 'value': values[i]}`
for every index `i` (including `i > 0`), and every POST of the call
carries `{'body': <that list>}`. -/
theorem c7_positional_pairing (c : Client) (resp : String → Option String)
    (uid dps nvals : List Int) (svals : List String)
    (hdn : dps.length = nvals.length) (hds : dps.length = svals.length) :
    ∃ Ln Ls,
      buildDescriptors JVal.jint dps nvals = some Ln ∧
      buildDescriptors JVal.jstr dps svals = some Ls ∧
      Ln.length = dps.length ∧ Ls.length = dps.length ∧
      (∀ i (hi : i < dps.length) (hiv : i < nvals.length) (hiL : i < Ln.length),
        Ln.get ⟨i, hiL⟩ =
          JVal.jobj [("id", JVal.jint (dps.get ⟨i, hi⟩)),
                     ("value", JVal.jint (nvals.get ⟨i, hiv⟩))]) ∧
      (∀ i (hi : i < dps.length) (hiv : i < svals.length) (hiL : i < Ls.length),
        Ls.get ⟨i, hiL⟩ =
          JVal.jobj [("id", JVal.jint (dps.get ⟨i, hi⟩)),
                     ("value", JVal.jstr (svals.get ⟨i, hiv⟩))]) ∧
      (∀ call ∈ (assign_number_attributes c resp uid dps nvals).1,
        call.isPost = true → call.bodyOf = JVal.jobj [("body", JVal.jarr Ln)]) ∧
      (∀ call ∈ (assign_string_attributes c resp uid dps svals).1,
        call.isPost = true → call.bodyOf = JVal.jobj [("body", JVal.jarr Ls)]) := by
  refine ⟨List.zipWith (fun d v => descPair JVal.jint d v) dps nvals,
          List.zipWith (fun d v => descPair JVal.jstr d v) dps svals,
          buildDescriptors_eq_zipWith JVal.jint dps nvals hdn.le,
          buildDescriptors_eq_zipWith JVal.jstr dps svals hds.le,
          ?_, ?_, ?_, ?_, ?_, ?_⟩
  · rw [List.length_zipWith]
    omega
  · rw [List.length_zipWith]
    omega
  · intro i hi hiv hiL
    simp [List.get_eq_getElem, List.getElem_zipWith, descPair]
  · intro i hi hiv hiL
    simp [List.get_eq_getElem, List.getElem_zipWith, descPair]
  · rw [assign_number_trace c resp uid dps nvals hdn.le]
    exact trace_bodies _ _ _ _ uid
  · rw [assign_string_trace c resp uid dps svals hds.le]
    exact trace_bodies _ _ _ _ uid

/-- Witness for C7 at concrete two-element lists. -/
theorem c7_positional_pairing_witness :
    ([5, 6] : List Int).length = ([7, 8] : List Int).length ∧
    ([5, 6] : List Int).length = (["a", "b"] : List String).length ∧
    (∃ Ln Ls,
      buildDescriptors JVal.jint [5, 6] [7, 8] = some Ln ∧
      buildDescriptors JVal.jstr [5, 6] ["a", "b"] = some Ls ∧
      Ln.length = ([5, 6] : List Int).length ∧
      Ls.length = ([5, 6] : List Int).length ∧
      (∀ i (hi : i < ([5, 6] : List Int).length)
          (hiv : i < ([7, 8] : List Int).length) (hiL : i < Ln.length),
        Ln.get ⟨i, hiL⟩ =
          JVal.jobj [("id", JVal.jint (([5, 6] : List Int).get ⟨i, hi⟩)),
                     ("value", JVal.jint (([7, 8] : List Int).get ⟨i, hiv⟩))]) ∧
      (∀ i (hi : i < ([5, 6] : List Int).length)
          (hiv : i < (["a", "b"] : List String).length) (hiL : i < Ls.length),
        Ls.get ⟨i, hiL⟩ =
          JVal.jobj [("id", JVal.jint (([5, 6] : List Int).get ⟨i, hi⟩)),
                     ("value", JVal.jstr ((["a", "b"] : List String).get ⟨i, hiv⟩))]) ∧
      (∀ call ∈ (assign_number_attributes c0 resp0 [0] [5, 6] [7, 8]).1,
        call.isPost = true → call.bodyOf = JVal.jobj [("body", JVal.jarr Ln)]) ∧
      (∀ call ∈ (assign_string_attributes c0 resp0 [0] [5, 6] ["a", "b"]).1,
        call.isPost = true → call.bodyOf = JVal.jobj [("body", JVal.jarr Ls)])) :=
  ⟨rfl, rfl,
   c7_positional_pairing c0 resp0 [0] [5, 6] [7, 8] ["a", "b"] rfl rfl⟩

/-- C9: construction validates the dynamic type of each of the five
arguments, fails with the assert's error whenever any is violated, and on
success constructs the client without performing any network call. -/
theorem c9_init_validates (u p pid ct rct : PyVal) :
    (initClient u p pid ct rct).2 = [] ∧
    ((∃ cl, (initClient u p pid ct rct).1 = Except.ok cl) ↔
      (u.isStr = true ∧ p.isStr = true ∧ pid.isInt = true ∧
       ct.isStr = true ∧ rct.isStr = true)) ∧
    (¬ (u.isStr = true ∧ p.isStr = true ∧ pid.isInt = true ∧
        ct.isStr = true ∧ rct.isStr = true) →
      (initClient u p pid ct rct).1 = Except.error PyError.AssertionError) := by
  cases u <;> cases p <;> cases pid <;> cases ct <;> cases rct <;>
    simp [initClient, PyVal.isStr, PyVal.isInt]

/-- Witness for C9 at one well-typed and one ill-typed argument tuple. -/
theorem c9_init_validates_witness :
    ((initClient (PyVal.pyStr "u") (PyVal.pyStr "p") (PyVal.pyInt 1)
        (PyVal.pyStr "application/json") (PyVal.pyStr "*/*")).2 = [] ∧
      ((∃ cl, (initClient (PyVal.pyStr "u") (PyVal.pyStr "p") (PyVal.pyInt 1)
          (PyVal.pyStr "application/json") (PyVal.pyStr "*/*")).1 = Except.ok cl) ↔
        ((PyVal.pyStr "u").isStr = true ∧ (PyVal.pyStr "p").isStr = true ∧
         (PyVal.pyInt 1).isInt = true ∧
         (PyVal.pyStr "application/json").isStr = true ∧
         (PyVal.pyStr "*/*").isStr = true)) ∧
      (¬ ((PyVal.pyStr "u").isStr = true ∧ (PyVal.pyStr "p").isStr = true ∧
          (PyVal.pyInt 1).isInt = true ∧
          (PyVal.pyStr "application/json").isStr = true ∧
          (PyVal.pyStr "*/*").isStr = true) →
        (initClient (PyVal.pyStr "u") (PyVal.pyStr "p") (PyVal.pyInt 1)
          (PyVal.pyStr "application/json") (PyVal.pyStr "*/*")).1 =
          Except.error PyError.AssertionError)) :=
  c9_init_validates (PyVal.pyStr "u") (PyVal.pyStr "p") (PyVal.pyInt 1)
    (PyVal.pyStr "application/json") (PyVal.pyStr "*/*")

/-- C10: when the attribute-value list is strictly shorter than the
datapoint list, the plural operations fail with `IndexError` before the
authentication call or any HTTP request, so zero calls are made; when it
is strictly longer, no error occurs, the extra values are ignored and
every POST body carries exactly one descriptor per datapoint. -/
theorem c10_mismatch_behavior (c : Client) (resp : String → Option String)
    (uid dps nvals : List Int) (svals : List String) :
    (nvals.length < dps.length →
      assign_number_attributes c resp uid dps nvals =
        ([], some PyError.IndexError)) ∧
    (dps.length < nvals.length → ∃ descs,
      buildDescriptors JVal.jint dps nvals = some descs ∧
      descs.length = dps.length ∧
      (assign_number_attributes c resp uid dps nvals).2 = none ∧
      ∀ call ∈ (assign_number_attributes c resp uid dps nvals).1,
        call.isPost = true → call.bodyOf = JVal.jobj [("body", JVal.jarr descs)]) ∧
    (svals.length < dps.length →
      assign_string_attributes c resp uid dps svals =
        ([], some PyError.IndexError)) ∧
    (dps.length < svals.length → ∃ descs,
      buildDescriptors JVal.jstr dps svals = some descs ∧
      descs.length = dps.length ∧
      (assign_string_attributes c resp uid dps svals).2 = none ∧
      ∀ call ∈ (assign_string_attributes c resp uid dps svals).1,
        call.isPost = true → call.bodyOf = JVal.jobj [("body", JVal.jarr descs)]) := by
  refine ⟨fun h => assign_number_trace_short c resp uid dps nvals h,
          fun h => ?_,
          fun h => assign_string_trace_short c resp uid dps svals h,
          fun h => ?_⟩
  · refine ⟨List.zipWith (fun d v => descPair JVal.jint d v) dps nvals,
      buildDescriptors_eq_zipWith JVal.jint dps nvals h.le, ?_, ?_, ?_⟩
    · rw [List.length_zipWith]
      omega
    · rw [assign_number_trace c resp uid dps nvals h.le]
    · rw [assign_number_trace c resp uid dps nvals h.le]
      exact trace_bodies _ _ _ _ uid
  · refine ⟨List.zipWith (fun d v => descPair JVal.jstr d v) dps svals,
      buildDescriptors_eq_zipWith JVal.jstr dps svals h.le, ?_, ?_, ?_⟩
    · rw [List.length_zipWith]
      omega
    · rw [assign_string_trace c resp uid dps svals h.le]
    · rw [assign_string_trace c resp uid dps svals h.le]
      exact trace_bodies _ _ _ _ uid

/-- Witness for C10 exercising both the shorter and the longer direction. -/
theorem c10_mismatch_behavior_witness :
    assign_number_attributes c0 resp0 [0] [5, 6] [7] =
      ([], some PyError.IndexError) ∧
    (∃ descs,
      buildDescriptors JVal.jstr [5] ["a", "b"] = some descs ∧
      descs.length = ([5] : List Int).length ∧
      (assign_string_attributes c0 resp0 [0] [5] ["a", "b"]).2 = none ∧
      ∀ call ∈ (assign_string_attributes c0 resp0 [0] [5] ["a", "b"]).1,
        call.isPost = true → call.bodyOf = JVal.jobj [("body", JVal.jarr descs)]) :=
  ⟨(c10_mismatch_behavior c0 resp0 [0] [5, 6] [7] []).1 (by decide),
   (c10_mismatch_behavior c0 resp0 [0] [5] [] ["a", "b"]).2.2.2 (by decide)⟩
